import Mathlib

/-!
Shallow embedding of the QR-code generator web application
(src/script.js and the export-capable variant src/unnamed/part_002).

The embedding keeps the structure of the source:

* JS strings are lists of characters; the builtins used by the code
  (String.prototype.trim, parseFloat, the trailing-or-zero idiom
  parseFloat(x) || 0) are modelled executably below.
* JS floating-point arithmetic is modelled over an arbitrary linear
  ordered field: theorems are stated generically, concrete evaluations
  instantiate the field at the rationals (every actual JS number is a
  rational), while statements that mention sqrt 2 or trigonometric
  functions instantiate it at the reals.
* The asynchronous render pipeline with unhandled promise rejections is
  modelled by Except: an image/fetch failure propagates exactly as an
  awaited rejection does in the source, and drawing commands issued to a
  canvas context are recorded as a list of drawing operations.
-/

namespace QrGen

/-- JS strings, modelled as lists of characters. -/
abbrev JsString := List Char

/-- Model of the JS builtin String.prototype.trim: drop leading and
trailing whitespace characters. -/
def jsTrim (s : JsString) : JsString :=
  ((s.dropWhile Char.isWhitespace).reverse.dropWhile Char.isWhitespace).reverse

/-- Numeric value of a decimal digit character. -/
def digitVal (c : Char) : ℕ := c.toNat - '0'.toNat

/-- Natural number denoted by a list of decimal digit characters. -/
def natOfDigits (ds : JsString) : ℕ := ds.foldl (fun n c => 10 * n + digitVal c) 0

/-- Model of the JS builtin parseFloat restricted to plain decimal
notation (optional sign, integer part, optional fractional part); none
models the NaN result on input with no numeric prefix. -/
def jsParseFloat (s : JsString) : Option ℚ :=
  let t0 := s.dropWhile Char.isWhitespace
  let signed : ℚ × JsString :=
    match t0 with
    | '-' :: r => (-1, r)
    | '+' :: r => (1, r)
    | r => (1, r)
  let ip := signed.2.takeWhile Char.isDigit
  let t1 := signed.2.dropWhile Char.isDigit
  let fp : JsString :=
    match t1 with
    | '.' :: r => r.takeWhile Char.isDigit
    | _ => []
  if ip = [] ∧ fp = [] then none
  else some (signed.1 * ((natOfDigits ip : ℚ) + (natOfDigits fp : ℚ) / 10 ^ fp.length))

/-- Model of the JS expression v || 0: NaN (none) and 0 are falsy, any
other number passes through. -/
def jsOrZero (v : Option ℚ) : ℚ :=
  match v with
  | none => 0
  | some x => if x = 0 then 0 else x

/-- Rotation in degrees as the source reads it from the rotation input:
parseFloat(rotationRange.value) || 0. -/
def rotationDegreesOf (s : JsString) : ℚ := jsOrZero (jsParseFloat s)

section Geometry

variable {α : Type} [LinearOrderedField α]

/-- Layout from resizeCanvasToContainer:
qrSize = qrContainer.offsetWidth * sqrt 2 / 2. -/
noncomputable def computeQrSize (containerWidth : ℝ) : ℝ :=
  containerWidth * Real.sqrt 2 / 2

/-- Layout from resizeCanvasToContainer: logoSize = qrSize * 0.2. -/
def logoSize (q : α) : α := q * 0.2

/-- Layout from resizeCanvasToContainer:
scaledLogoSize = logoSize * offscreenScale with offscreenScale = 3. -/
def scaledLogoSize (q : α) : α := logoSize q * 3

/-- Layout from resizeCanvasToContainer: scaledSafeZone = scaledLogoSize * 1.1. -/
def scaledSafeZone (q : α) : α := scaledLogoSize q * 1.1

namespace Raster

/-- Pixel margin inside drawQrToCtx: marginPx = margin * offscreenScale = 20 * 3. -/
def marginPx : α := 20 * 3

/-- Usable drawing span inside drawQrToCtx:
usableSize = (qrSize - 2 * margin) * offscreenScale. -/
def usableSize (q : α) : α := (q - 2 * 20) * 3

/-- Module cell size inside drawQrToCtx: cellSize = usableSize / qrCode.modules.size. -/
def cellSize (q : α) (n : ℕ) : α := usableSize q / (n : α)

/-- Safe-zone lower bound inside drawQrToCtx:
logoStart = marginPx + (usableSize - scaledSafeZone) / 2. -/
def logoStart (q : α) : α := marginPx + (usableSize q - scaledSafeZone q) / 2

/-- Safe-zone upper bound inside drawQrToCtx: logoEnd = logoStart + scaledSafeZone. -/
def logoEnd (q : α) : α := logoStart q + scaledSafeZone q

/-- Horizontal (or, fed a row index, vertical) coordinate of a module
cell inside drawQrToCtx: x = marginPx + col * cellSize. -/
def cellX (q : α) (n idx : ℕ) : α := marginPx + (idx : α) * cellSize q n

/-- The intersectsSafeZone test of drawQrToCtx, verbatim:
not (cellRight < logoStart or x > logoEnd or cellBottom < logoStart or y > logoEnd). -/
def intersectsSafeZone (q : α) (n row col : ℕ) : Prop :=
  ¬ (cellX q n col + cellSize q n < logoStart q ∨ cellX q n col > logoEnd q ∨
     cellX q n row + cellSize q n < logoStart q ∨ cellX q n row > logoEnd q)

instance (q : α) (n row col : ℕ) : Decidable (intersectsSafeZone q n row col) := by
  unfold intersectsSafeZone
  infer_instance

/-- A raster cell is skipped exactly when the logo checkbox is checked
and the cell intersects the safe zone (drawQrToCtx early return). -/
def excluded (includeLogo : Bool) (q : α) (n row col : ℕ) : Prop :=
  includeLogo = true ∧ intersectsSafeZone q n row col

instance (L : Bool) (q : α) (n row col : ℕ) : Decidable (excluded L q n row col) := by
  unfold excluded
  infer_instance

/-- What the drawQrToCtx forEach body paints for one cell. -/
inductive CellPaint where
  | skipped
  | moduleFill
  | backgroundFill
deriving DecidableEq

/-- The per-cell decision of the drawQrToCtx forEach body: skip cells
in the safe zone when a logo is requested, fill dark modules with the
module color, fill light modules with the background color only when
the background is neither transparent nor an image. -/
def cellPaint (includeLogo transparent hasBgImage bit : Bool)
    (q : α) (n row col : ℕ) : CellPaint :=
  if includeLogo = true ∧ intersectsSafeZone q n row col then .skipped
  else if bit = true then .moduleFill
  else if transparent = false ∧ hasBgImage = false then .backgroundFill
  else .skipped

/-- The integer rectangle handed to fillRect for one module:
(Math.floor x, Math.floor y, Math.ceil cellSize, Math.ceil cellSize). -/
def modulePaintRect [FloorRing α] (q : α) (n row col : ℕ) : ℤ × ℤ × ℤ × ℤ :=
  (⌊cellX q n col⌋, ⌊cellX q n row⌋, ⌈cellSize q n⌉, ⌈cellSize q n⌉)

end Raster

namespace Svg

/-- Base size of the vector document in downloadQRCodeAsSVG: baseSize = 1000. -/
def baseSize : α := 1000

/-- Vector-path margin in downloadQRCodeAsSVG: marginPx = baseSize * (margin / qrSize). -/
def marginPx (q : α) : α := baseSize * (20 / q)

/-- Vector-path usable span in downloadQRCodeAsSVG: usableSize = baseSize - 2 * marginPx. -/
def usableSize (q : α) : α := baseSize - 2 * marginPx q

/-- Vector-path cell size in downloadQRCodeAsSVG: cellSize = usableSize / qrCode.modules.size. -/
def cellSize (q : α) (n : ℕ) : α := usableSize q / (n : α)

/-- Vector-path logo size in downloadQRCodeAsSVG: logoSize = usableSize * 0.2. -/
def logoSize (q : α) : α := usableSize q * 0.2

/-- Vector-path safe zone in downloadQRCodeAsSVG: safeZone = logoSize * 1.1. -/
def safeZone (q : α) : α := logoSize q * 1.1

/-- Vector-path safe-zone lower bound: logoStart = marginPx + (usableSize - safeZone) / 2. -/
def logoStart (q : α) : α := marginPx q + (usableSize q - safeZone q) / 2

/-- Vector-path safe-zone upper bound: logoEnd = logoStart + safeZone. -/
def logoEnd (q : α) : α := logoStart q + safeZone q

/-- Left edge of the centred QR square in the rotated group: qrX = -baseSize / 2. -/
def qrX : α := -baseSize / 2

/-- Module coordinate in the rotated group: x = qrX + marginPx + col * cellSize. -/
def cellX (q : α) (n idx : ℕ) : α := qrX + marginPx q + (idx : α) * cellSize q n

/-- The intersectsSafeZone test of downloadQRCodeAsSVG, verbatim, with
rotatedLogoStart = qrX + logoStart and rotatedLogoEnd = qrX + logoEnd. -/
def intersectsSafeZone (q : α) (n row col : ℕ) : Prop :=
  ¬ (cellX q n col + cellSize q n < qrX + logoStart q ∨
     cellX q n col > qrX + logoEnd q ∨
     cellX q n row + cellSize q n < qrX + logoStart q ∨
     cellX q n row > qrX + logoEnd q)

instance (q : α) (n row col : ℕ) : Decidable (intersectsSafeZone q n row col) := by
  unfold intersectsSafeZone
  infer_instance

/-- A vector-path cell is dropped from the module path exactly when the
logo checkbox is checked and the cell intersects the safe zone. -/
def excluded (includeLogo : Bool) (q : α) (n row col : ℕ) : Prop :=
  includeLogo = true ∧ intersectsSafeZone q n row col

instance (L : Bool) (q : α) (n row col : ℕ) : Decidable (excluded L q n row col) := by
  unfold excluded
  infer_instance

end Svg

end Geometry

namespace Svg

/-- Rotation magnitude in radians in downloadQRCodeAsSVG:
rotationRadians = abs (rotationDegrees * pi / 180). -/
noncomputable def rotationRadians (θ : ℝ) : ℝ := |θ * Real.pi / 180|

/-- Canvas growth factor in downloadQRCodeAsSVG:
expansionFactor = max (abs (cos rotationRadians) + abs (sin rotationRadians)) 1. -/
noncomputable def expansionFactor (θ : ℝ) : ℝ :=
  max (|Real.cos (rotationRadians θ)| + |Real.sin (rotationRadians θ)|) 1

/-- Expanded size in downloadQRCodeAsSVG: Math.ceil (baseSize * expansionFactor). -/
noncomputable def expandedSize (θ : ℝ) : ℝ :=
  (⌈(baseSize : ℝ) * expansionFactor θ⌉ : ℤ)

/-- Padding in downloadQRCodeAsSVG: paddingSize = baseSize * 0.1. -/
noncomputable def paddingSize : ℝ := baseSize * 0.1

/-- Document side length in downloadQRCodeAsSVG: size = expandedSize + paddingSize * 2. -/
noncomputable def svgSize (θ : ℝ) : ℝ := expandedSize θ + paddingSize * 2

end Svg

/-- Path of the default centre logo asset (the logoSrc constant of src/script.js). -/
def logoSrc : JsString := "images/logo/WRSS_WIT_Logo.svg".data

/-- Errors surfaced by the render pipeline: an asset (image or fetched
SVG) failed to load or decode, which in the source is a rejected promise
that no caller catches. -/
inductive JsError where
  | assetLoad
deriving DecidableEq

/-- Ambient state read by the pipeline: the DOM inputs, the module-level
mutable variables, the asset loader (whether a given source loads
successfully) and the external QR encoder
QRCode.create(text, errorCorrectionLevel H), returned as
(modules.size, modules.data). -/
structure Env (α : Type) where
  textValue : JsString
  qrColor : JsString
  bgColor : JsString
  rotationValue : JsString
  transparentChecked : Bool
  includeLogoChecked : Bool
  backgroundImageSrc : Option JsString
  customLogoSrc : Option JsString
  qrSize : α
  displaySize : α
  sqrt2 : α
  loads : JsString → Bool
  encode : JsString → ℕ × List Bool

/-- Drawing commands issued to a 2D canvas context. drawLogo records the
composed effect of drawSvgToCanvas (translate to the centre, counter
rotate, clip to a circle, draw the recoloured SVG, with an optional
background rectangle spliced into the SVG text); drawOffscreen records
the final translate, rotate, scale and drawImage of the offscreen canvas
onto the display canvas. -/
inductive DrawOp (α : Type) where
  | clearRect (x y w h : α)
  | fillRect (x y w h : α) (color : JsString)
  | drawImage (src : JsString) (x y w h : α)
  | drawLogo (src : JsString) (centerX centerY w h : α) (counterRotationDeg : ℚ)
      (bgRectColor : Option JsString) (strokeColor : JsString)
  | drawOffscreen (ops : List (DrawOp α)) (rotationDeg : ℚ) (scale : α) (x y w h : α)

/-- Result of one successful generateQR call: the commands applied to
the visible canvas and the display style given to the save-buttons bar. -/
structure GenResult (α : Type) where
  mainOps : List (DrawOp α)
  saveButtonsDisplay : JsString

section Pipeline

variable {α : Type} [LinearOrderedField α] [FloorRing α]

/-- drawBgImage of src/script.js: draw the chosen background image
stretched over the whole canvas; reject on image load failure. -/
def drawBgImage (e : Env α) (src : JsString) (w h : α) :
    Except JsError (List (DrawOp α)) :=
  if e.loads src = true then .ok [.drawImage src 0 0 w h] else .error .assetLoad

/-- drawSvgToCanvas of src/script.js: fetch the SVG, splice in a
background rectangle when the background is neither transparent nor an
image, recolour strokes to the module colour, then draw it centred,
counter-rotated by the current rotation and clipped to a circle.
Fetch or decode failure rejects. -/
def drawSvgToCanvas (e : Env α) (svgPath : JsString) (centerX centerY w h : α)
    (bgColor qrColor : JsString) : Except JsError (List (DrawOp α)) :=
  if e.loads svgPath = true then
    .ok [.drawLogo svgPath centerX centerY w h (-(rotationDegreesOf e.rotationValue))
          (if e.transparentChecked = false ∧ e.backgroundImageSrc = none
           then some bgColor else none) qrColor]
  else .error .assetLoad

/-- Rectangle coordinates of one fillRect op, from an integer rectangle. -/
def fillRectOfRect (r : ℤ × ℤ × ℤ × ℤ) (color : JsString) : DrawOp α :=
  .fillRect (r.1 : α) (r.2.1 : α) (r.2.2.1 : α) (r.2.2.2 : α) color

/-- The module-drawing forEach loop of drawQrToCtx: for each entry of
qrCode.modules.data, decide the paint with cellPaint and emit the
floored/ceiled fillRect. -/
def moduleOps (e : Env α) (text qrColor bgColor : JsString) : List (DrawOp α) :=
  let n := (e.encode text).1
  ((e.encode text).2.enum).filterMap fun p =>
    let col := p.1 % n
    let row := p.1 / n
    match Raster.cellPaint e.includeLogoChecked e.transparentChecked
        e.backgroundImageSrc.isSome p.2 e.qrSize n row col with
    | .skipped => none
    | .moduleFill => some (fillRectOfRect (Raster.modulePaintRect e.qrSize n row col) qrColor)
    | .backgroundFill => some (fillRectOfRect (Raster.modulePaintRect e.qrSize n row col) bgColor)

/-- drawQrToCtx of src/script.js: clear, draw the background (image or
solid colour, unless transparent), draw the modules, and if the logo is
requested fetch and draw it. The logoToUse computed from customLogoSrc
is dead in this file: the call passes the constant logoSrc. An await of
a failing asset load rejects the whole call. -/
def drawQrToCtx (e : Env α) (text qrColor bgColor : JsString) :
    Except JsError (List (DrawOp α)) := do
  let width := e.qrSize * 3
  let height := e.qrSize * 3
  let bgOps ←
    if e.backgroundImageSrc.isSome = true ∧ e.transparentChecked = false then
      drawBgImage e (e.backgroundImageSrc.getD []) width height
    else if e.transparentChecked = false then
      pure [DrawOp.fillRect 0 0 width height bgColor]
    else
      pure []
  let logoOps ←
    if e.includeLogoChecked = true then
      let logoToUse := match e.customLogoSrc with
        | some s => s
        | none => logoSrc
      drawSvgToCanvas e logoSrc
        (Raster.marginPx + Raster.usableSize e.qrSize / 2)
        (Raster.marginPx + Raster.usableSize e.qrSize / 2)
        (scaledLogoSize e.qrSize) (scaledLogoSize e.qrSize) bgColor qrColor
    else
      pure []
  pure ([DrawOp.clearRect 0 0 width height] ++ bgOps
        ++ moduleOps e text qrColor bgColor ++ logoOps)

/-- generateQR of src/script.js: trim the text; when empty, clear the
display canvas and hide the save buttons; otherwise render the offscreen
canvas via drawQrToCtx and blit it onto the display canvas translated to
the centre, rotated by the chosen angle and scaled by
displaySize / (900 * sqrt 2). A rejected drawQrToCtx propagates, so the
display canvas is never touched in that case. -/
def generateQR (e : Env α) : Except JsError (GenResult α) :=
  match jsTrim e.textValue with
  | [] =>
    .ok { mainOps := [.clearRect 0 0 e.displaySize e.displaySize]
          saveButtonsDisplay := "none".data }
  | t => do
    let offscreenOps ← drawQrToCtx e t e.qrColor e.bgColor
    let rotationDegrees := rotationDegreesOf e.rotationValue
    let scaledFactor := e.displaySize / (900 * e.sqrt2)
    pure { mainOps := [.clearRect 0 0 e.displaySize e.displaySize,
             .drawOffscreen offscreenOps rotationDegrees scaledFactor
               (-900 / 2) (-900 / 2) 900 900]
           saveButtonsDisplay := "flex".data }

/-- Filename of the PNG download in downloadQRCode of src/script.js:
textInput.value.trim() followed by the fixed suffix. -/
def downloadFilename (textValue : JsString) : JsString :=
  jsTrim textValue ++ "_QR_Code.png".data

/-- Geometric and decision content of the SVG document built by
downloadQRCodeAsSVG of src/unnamed/part_002: the rotation written into
the transform group, the background rectangle decision, the module cells
emitted into the merged path, whether a logo block is appended, and the
download filename. The document side length is modelled separately by
Svg.svgSize. -/
structure SvgDoc where
  rotationDeg : ℚ
  bgColor : JsString
  bgRectEmitted : Bool
  cells : List (ℕ × ℕ)
  logoRequested : Bool
  filename : JsString
deriving DecidableEq

/-- The module forEach loop of downloadQRCodeAsSVG: only dark modules
are considered; when the logo is requested, cells intersecting the safe
zone are dropped; the rest are emitted into the path data. -/
def svgModuleCells (includeLogo : Bool) (q : α) (n : ℕ) (bits : List Bool) :
    List (ℕ × ℕ) :=
  bits.enum.filterMap fun p =>
    if p.2 = true then
      let col := p.1 % n
      let row := p.1 / n
      if includeLogo = true ∧ Svg.intersectsSafeZone q n row col then none
      else some (row, col)
    else none

/-- downloadQRCodeAsSVG of src/unnamed/part_002: return without any
document when the trimmed text is empty, otherwise assemble the
document contents. -/
def downloadQRCodeAsSVG (e : Env α) : Option SvgDoc :=
  match jsTrim e.textValue with
  | [] => none
  | t =>
    let n := (e.encode t).1
    let bits := (e.encode t).2
    let bgColor := if e.transparentChecked = true then "transparent".data else e.bgColor
    some { rotationDeg := rotationDegreesOf e.rotationValue
           bgColor := bgColor
           bgRectEmitted := decide (bgColor ≠ "transparent".data)
           cells := svgModuleCells e.includeLogoChecked e.qrSize n bits
           logoRequested := e.includeLogoChecked
           filename := t ++ "_QR_Code.svg".data }

end Pipeline

/-- A concrete environment over the rationals used to instantiate
theorems at explicit inputs. -/
def sampleEnv : Env ℚ where
  textValue := ['a']
  qrColor := "#000000".data
  bgColor := "#ffffff".data
  rotationValue := ['0']
  transparentChecked := false
  includeLogoChecked := false
  backgroundImageSrc := none
  customLogoSrc := none
  qrSize := 240
  displaySize := 340
  sqrt2 := 1.4142135623730951
  loads := fun _ => true
  encode := fun _ => (1, [true])

/-- A concrete environment whose logo asset fails to load. -/
def logoFailEnv : Env ℚ :=
  { sampleEnv with includeLogoChecked := true, loads := fun _ => false }

/-- A second concrete environment with a failing logo asset, used to
instantiate the recovery theorem. -/
def failingEnv : Env ℚ :=
  { sampleEnv with textValue := ['b'], includeLogoChecked := true, loads := fun _ => false }

section SpecModel

variable {α : Type} [LinearOrderedField α]

/-- Modelled from the spec: closed axis-aligned rectangle overlap of the
cell square with the safe-zone square, where merely touching counts as
overlapping. -/
def rectMeetsSafeZone (q : α) (n row col : ℕ) : Prop :=
  (Raster.logoStart q ≤ Raster.cellX q n col + Raster.cellSize q n ∧
     Raster.cellX q n col ≤ Raster.logoEnd q) ∧
  (Raster.logoStart q ≤ Raster.cellX q n row + Raster.cellSize q n ∧
     Raster.cellX q n row ≤ Raster.logoEnd q)

end SpecModel

section Helpers

variable {α : Type} [LinearOrderedField α]

/-- Moving one column to the right advances the cell edge by exactly one
cell size (raster path). -/
lemma raster_cellX_succ (q : α) (n j : ℕ) :
    Raster.cellX q n (j + 1) = Raster.cellX q n j + Raster.cellSize q n := by
  unfold Raster.cellX
  push_cast
  ring

/-- Moving one column to the right advances the cell edge by exactly one
cell size (vector path). -/
lemma svg_cellX_succ (q : α) (n j : ℕ) :
    Svg.cellX q n (j + 1) = Svg.cellX q n j + Svg.cellSize q n := by
  unfold Svg.cellX
  push_cast
  ring

/-- Flooring the far edge never passes the floored near edge plus the
ceiled extent. -/
lemma floor_add_le_floor_add_ceil [FloorRing α] (x c : α) :
    ⌊x + c⌋ ≤ ⌊x⌋ + ⌈c⌉ := by
  have h : x + c ≤ x + (⌈c⌉ : α) := add_le_add_left (Int.le_ceil c) x
  calc ⌊x + c⌋ ≤ ⌊x + (⌈c⌉ : α)⌋ := Int.floor_le_floor h
    _ = ⌊x⌋ + ⌈c⌉ := Int.floor_add_int x _

/-- Trimming a string of nothing but whitespace leaves nothing. -/
lemma jsTrim_eq_nil {s : JsString} (h : ∀ c ∈ s, Char.isWhitespace c = true) :
    jsTrim s = [] := by
  unfold jsTrim
  have h1 : s.dropWhile Char.isWhitespace = [] := List.dropWhile_eq_nil_iff.mpr h
  simp [h1]

/-- Value of the rotation field when it holds the single digit 0. -/
lemma rotationDegreesOf_zero_str : rotationDegreesOf ['0'] = 0 := by
  have h : jsParseFloat ['0'] = some (1 * (((0 : ℕ) : ℚ) + ((0 : ℕ) : ℚ) / 10 ^ (0 : ℕ))) := rfl
  rw [rotationDegreesOf, h, jsOrZero]
  norm_num

/-- Renders that differ only in the rotation input behave identically
whenever the two rotation strings parse to the same angle. -/
lemma generateQR_rotation_congr [FloorRing α] (e : Env α) (r₁ r₂ : JsString)
    (h : rotationDegreesOf r₁ = rotationDegreesOf r₂) :
    generateQR { e with rotationValue := r₁ } = generateQR { e with rotationValue := r₂ } := by
  cases hm : jsTrim e.textValue with
  | nil => simp [generateQR, hm]
  | cons c t =>
    simp only [generateQR, hm, drawQrToCtx, drawSvgToCanvas, h]
    rfl

/-- Vector exports that differ only in the rotation input agree whenever
the two rotation strings parse to the same angle. -/
lemma downloadQRCodeAsSVG_rotation_congr [FloorRing α] (e : Env α) (r₁ r₂ : JsString)
    (h : rotationDegreesOf r₁ = rotationDegreesOf r₂) :
    downloadQRCodeAsSVG { e with rotationValue := r₁ } =
      downloadQRCodeAsSVG { e with rotationValue := r₂ } := by
  cases hm : jsTrim e.textValue with
  | nil => simp [downloadQRCodeAsSVG, hm]
  | cons c t => simp [downloadQRCodeAsSVG, hm, h]

end Helpers

section ClaimTheorems

variable {α : Type} [LinearOrderedField α]

/-- C3: a raster cell is excluded exactly when a logo is requested and
its rectangle overlaps the safe zone, touching included; an excluded
cell receives no paint; a non-excluded dark cell is filled with the
module colour; a non-excluded light cell is filled with the background
colour exactly when the background is solid, and is otherwise left
unpainted. -/
theorem cell_exclusion_and_paint (L t bImg bit : Bool) (q : α) (n row col : ℕ) :
    (Raster.excluded L q n row col ↔ L = true ∧ rectMeetsSafeZone q n row col) ∧
    (Raster.excluded L q n row col →
      Raster.cellPaint L t bImg bit q n row col = .skipped) ∧
    (¬ Raster.excluded L q n row col → bit = true →
      Raster.cellPaint L t bImg bit q n row col = .moduleFill) ∧
    (¬ Raster.excluded L q n row col → bit = false →
      (Raster.cellPaint L t bImg bit q n row col = .backgroundFill ↔
        t = false ∧ bImg = false)) ∧
    (¬ Raster.excluded L q n row col → bit = false → ¬ (t = false ∧ bImg = false) →
      Raster.cellPaint L t bImg bit q n row col = .skipped) := by
  refine ⟨?_, ?_, ?_, ?_, ?_⟩
  · unfold Raster.excluded Raster.intersectsSafeZone rectMeetsSafeZone
    simp only [not_or, not_lt, gt_iff_lt]
    tauto
  · intro hx
    unfold Raster.excluded at hx
    unfold Raster.cellPaint
    rw [if_pos hx]
  · intro hx hb
    unfold Raster.excluded at hx
    unfold Raster.cellPaint
    rw [if_neg hx, if_pos hb]
  · intro hx hb
    unfold Raster.excluded at hx
    unfold Raster.cellPaint
    rw [if_neg hx, if_neg (by simp [hb])]
    by_cases hs : t = false ∧ bImg = false
    · rw [if_pos hs]
      exact ⟨fun _ => hs, fun _ => rfl⟩
    · rw [if_neg hs]
      exact ⟨fun hp => absurd hp (by simp), fun hs2 => absurd hs2 hs⟩
  · intro hx hb hs
    unfold Raster.excluded at hx
    unfold Raster.cellPaint
    rw [if_neg hx, if_neg (by simp [hb]), if_neg hs]

/-- C3 witness: the cases at a concrete configuration. -/
theorem cell_exclusion_and_paint_witness :
    (Raster.excluded true (240 : ℚ) 21 7 7 ↔ true = true ∧ rectMeetsSafeZone (240 : ℚ) 21 7 7) ∧
    (Raster.excluded true (240 : ℚ) 21 7 7 →
      Raster.cellPaint true false false true (240 : ℚ) 21 7 7 = .skipped) ∧
    (¬ Raster.excluded true (240 : ℚ) 21 7 7 → true = true →
      Raster.cellPaint true false false true (240 : ℚ) 21 7 7 = .moduleFill) ∧
    (¬ Raster.excluded true (240 : ℚ) 21 7 7 → true = false →
      (Raster.cellPaint true false false true (240 : ℚ) 21 7 7 = .backgroundFill ↔
        false = false ∧ false = false)) ∧
    (¬ Raster.excluded true (240 : ℚ) 21 7 7 → true = false → ¬ (false = false ∧ false = false) →
      Raster.cellPaint true false false true (240 : ℚ) 21 7 7 = .skipped) :=
  cell_exclusion_and_paint true false false true (240 : ℚ) 21 7 7

/-- C5: in both output paths the safe-zone square is centred on the
geometric centre of the grid (logoStart + logoEnd = 2 * (marginPx +
usableSize / 2)), and the per-cell module decisions do not depend on the
rotation input in any way. -/
theorem safe_zone_centred_rotation_free [FloorRing α] (q : α) (e : Env α)
    (text qrC bgC r₁ r₂ : JsString) :
    Raster.logoStart q + Raster.logoEnd q =
      2 * (Raster.marginPx + Raster.usableSize q / 2) ∧
    Svg.logoStart q + Svg.logoEnd q = 2 * (Svg.marginPx q + Svg.usableSize q / 2) ∧
    moduleOps { e with rotationValue := r₁ } text qrC bgC =
      moduleOps { e with rotationValue := r₂ } text qrC bgC ∧
    Option.map SvgDoc.cells (downloadQRCodeAsSVG { e with rotationValue := r₁ }) =
      Option.map SvgDoc.cells (downloadQRCodeAsSVG { e with rotationValue := r₂ }) := by
  refine ⟨?_, ?_, rfl, ?_⟩
  · simp only [Raster.logoEnd, Raster.logoStart, Raster.marginPx, Raster.usableSize]
    ring
  · simp only [Svg.logoEnd, Svg.logoStart, Svg.marginPx, Svg.usableSize]
    ring
  · cases hm : jsTrim e.textValue with
    | nil => simp [downloadQRCodeAsSVG, hm]
    | cons c ts => simp [downloadQRCodeAsSVG, hm]

/-- C6: every painted module rectangle has its corner at the floored
coordinates and a ceiled extent, and flooring the next cell edge never
passes the floored edge plus the ceiled extent, so adjacent painted
rectangles leave no gap for any positive cell size. -/
theorem module_rect_rounding [FloorRing α] (q : α) (n row col : ℕ)
    (hc : 0 < Raster.cellSize q n) :
    Raster.modulePaintRect q n row col =
      (⌊Raster.cellX q n col⌋, ⌊Raster.cellX q n row⌋,
       ⌈Raster.cellSize q n⌉, ⌈Raster.cellSize q n⌉) ∧
    ⌊Raster.cellX q n (col + 1)⌋ ≤ ⌊Raster.cellX q n col⌋ + ⌈Raster.cellSize q n⌉ ∧
    ⌊Raster.cellX q n (row + 1)⌋ ≤ ⌊Raster.cellX q n row⌋ + ⌈Raster.cellSize q n⌉ := by
  refine ⟨rfl, ?_, ?_⟩
  · rw [raster_cellX_succ]
    exact floor_add_le_floor_add_ceil _ _
  · rw [raster_cellX_succ]
    exact floor_add_le_floor_add_ceil _ _

/-- C6 witness: the rounding facts at a concrete cell. -/
theorem module_rect_rounding_witness :
    Raster.modulePaintRect (240 : ℚ) 21 0 0 =
      (⌊Raster.cellX (240 : ℚ) 21 0⌋, ⌊Raster.cellX (240 : ℚ) 21 0⌋,
       ⌈Raster.cellSize (240 : ℚ) 21⌉, ⌈Raster.cellSize (240 : ℚ) 21⌉) ∧
    ⌊Raster.cellX (240 : ℚ) 21 (0 + 1)⌋ ≤ ⌊Raster.cellX (240 : ℚ) 21 0⌋ + ⌈Raster.cellSize (240 : ℚ) 21⌉ ∧
    ⌊Raster.cellX (240 : ℚ) 21 (0 + 1)⌋ ≤ ⌊Raster.cellX (240 : ℚ) 21 0⌋ + ⌈Raster.cellSize (240 : ℚ) 21⌉ :=
  module_rect_rounding (240 : ℚ) 21 0 0
    (by norm_num [Raster.cellSize, Raster.usableSize])

/-- C7: an empty trimmed text clears the display canvas, hides the save
buttons and returns without an error, and the vector export produces no
document. -/
theorem empty_text_render_and_export [FloorRing α] (e : Env α)
    (h : jsTrim e.textValue = []) :
    generateQR e = .ok { mainOps := [.clearRect 0 0 e.displaySize e.displaySize]
                         saveButtonsDisplay := "none".data } ∧
    downloadQRCodeAsSVG e = none := by
  constructor
  · unfold generateQR
    rw [h]
  · unfold downloadQRCodeAsSVG
    rw [h]

/-- C7 witness: the empty render at a concrete environment. -/
theorem empty_text_render_and_export_witness :
    generateQR { sampleEnv with textValue := [] } =
      .ok { mainOps := [.clearRect 0 0 340 340], saveButtonsDisplay := "none".data } ∧
    downloadQRCodeAsSVG { sampleEnv with textValue := ([] : JsString) } = none :=
  empty_text_render_and_export { sampleEnv with textValue := [] } rfl

/-- C8: in src/script.js the raster render is independent of the custom
logo source, because drawQrToCtx always fetches the constant logoSrc. -/
theorem raster_independent_of_custom_logo [FloorRing α] (e : Env α)
    (c₁ c₂ : Option JsString) :
    generateQR { e with customLogoSrc := c₁ } =
      generateQR { e with customLogoSrc := c₂ } := rfl

/-- C9: a whitespace-only text is treated exactly like an empty text:
trimmed to nothing before the emptiness check, before encoding and
before filename construction. -/
theorem whitespace_only_input_like_empty [FloorRing α] (e : Env α)
    (h : ∀ c ∈ e.textValue, Char.isWhitespace c = true) :
    jsTrim e.textValue = [] ∧
    generateQR e = generateQR { e with textValue := [] } ∧
    downloadQRCodeAsSVG e = none ∧
    downloadFilename e.textValue = downloadFilename [] := by
  have hnil : jsTrim e.textValue = [] := jsTrim_eq_nil h
  refine ⟨hnil, ?_, ?_, ?_⟩
  · unfold generateQR
    rw [hnil]
    rfl
  · unfold downloadQRCodeAsSVG
    rw [hnil]
  · unfold downloadFilename
    rw [hnil]
    rfl

/-- C9 witness: a space-and-tab text at a concrete environment. -/
theorem whitespace_only_input_like_empty_witness :
    jsTrim ([' ', '\t'] : JsString) = [] ∧
    generateQR { sampleEnv with textValue := [' ', '\t'] } =
      generateQR { { sampleEnv with textValue := [' ', '\t'] } with textValue := [] } ∧
    downloadQRCodeAsSVG { sampleEnv with textValue := [' ', '\t'] } = none ∧
    downloadFilename ([' ', '\t'] : JsString) = downloadFilename [] :=
  whitespace_only_input_like_empty { sampleEnv with textValue := [' ', '\t'] } (by decide)

/-- C10: a rotation input on which parseFloat yields NaN is used as
exactly 0 degrees everywhere, and the render behaves exactly as with a
rotation input of 0, never failing because of the unparsable value. -/
theorem nan_rotation_treated_as_zero [FloorRing α] (e : Env α)
    (h : jsParseFloat e.rotationValue = none) :
    rotationDegreesOf e.rotationValue = 0 ∧
    generateQR e = generateQR { e with rotationValue := ['0'] } ∧
    downloadQRCodeAsSVG e = downloadQRCodeAsSVG { e with rotationValue := ['0'] } := by
  have h0 : rotationDegreesOf e.rotationValue = 0 := by
    rw [rotationDegreesOf, h]
    rfl
  have hcongr : rotationDegreesOf e.rotationValue = rotationDegreesOf ['0'] := by
    rw [h0, rotationDegreesOf_zero_str]
  refine ⟨h0, ?_, ?_⟩
  · exact generateQR_rotation_congr e e.rotationValue ['0'] hcongr
  · exact downloadQRCodeAsSVG_rotation_congr e e.rotationValue ['0'] hcongr

/-- C10 witness: a non-numeric rotation input at a concrete environment. -/
theorem nan_rotation_treated_as_zero_witness :
    rotationDegreesOf (['a', 'b', 'c'] : JsString) = 0 ∧
    generateQR { sampleEnv with rotationValue := ['a', 'b', 'c'] } =
      generateQR { { sampleEnv with rotationValue := ['a', 'b', 'c'] } with rotationValue := ['0'] } ∧
    downloadQRCodeAsSVG { sampleEnv with rotationValue := ['a', 'b', 'c'] } =
      downloadQRCodeAsSVG { { sampleEnv with rotationValue := ['a', 'b', 'c'] } with rotationValue := ['0'] } :=
  nan_rotation_treated_as_zero { sampleEnv with rotationValue := ['a', 'b', 'c'] } (by decide)

/-- Rational bounds on the square root of two, used to evaluate the
layout at the concrete container width 340. -/
lemma sqrt2_bounds : (1.41 : ℝ) < Real.sqrt 2 ∧ Real.sqrt 2 < 1.42 := by
  constructor
  · have h : (1.41 : ℝ) = Real.sqrt (1.41 ^ 2) := (Real.sqrt_sq (by norm_num)).symm
    rw [h]
    exact Real.sqrt_lt_sqrt (by norm_num) (by norm_num)
  · have h : (1.42 : ℝ) = Real.sqrt (1.42 ^ 2) := (Real.sqrt_sq (by norm_num)).symm
    rw [h]
    exact Real.sqrt_lt_sqrt (by norm_num) (by norm_num)

/-- C1 counterexample: at container width 340 and a 21-module grid, the
raster compositor excludes cell (7, 7) while the vector exporter keeps
it, so the two per-cell exclusion decisions are not identical. -/
theorem raster_vector_exclusion_differ_at_340 :
    Raster.excluded true (computeQrSize 340) 21 7 7 ∧
    ¬ Svg.excluded true (computeQrSize 340) 21 7 7 := by
  obtain ⟨hs1, hs2⟩ := sqrt2_bounds
  have hq1 : (239 : ℝ) < computeQrSize 340 := by
    unfold computeQrSize
    nlinarith
  have hq2 : computeQrSize 340 < 242 := by
    unfold computeQrSize
    nlinarith
  set q := computeQrSize 340 with hqdef
  constructor
  · refine ⟨rfl, ?_⟩
    simp only [Raster.intersectsSafeZone, Raster.cellX, Raster.cellSize, Raster.usableSize,
      Raster.marginPx, Raster.logoStart, Raster.logoEnd, scaledSafeZone, scaledLogoSize, logoSize]
    push_cast
    intro hcon
    rcases hcon with h | h | h | h <;> linarith
  · rintro ⟨-, hint⟩
    refine hint (Or.inl ?_)
    have hq0 : (0 : ℝ) < q := by linarith
    have hd1 : (20 : ℝ) / q < 0.1 := by
      rw [div_lt_iff hq0]
      linarith
    have hd0 : (0 : ℝ) < 20 / q := by positivity
    simp only [Svg.cellX, Svg.cellSize, Svg.usableSize, Svg.marginPx, Svg.baseSize, Svg.qrX,
      Svg.logoStart, Svg.safeZone, Svg.logoSize]
    push_cast
    linarith

/-- Raster cell strictly left of the raster safe zone: its right edge
sits below 39 percent of the grid span. -/
lemma raster_left_gap_frac {α : Type} [LinearOrderedField α] {q : α} (hq : 40 < q)
    {n j : ℕ} (hn : 0 < n) (h : Raster.cellX q n j < Raster.logoStart q) :
    (j : α) < 0.39 * n := by
  simp only [Raster.cellX, Raster.cellSize, Raster.logoStart, Raster.marginPx,
    Raster.usableSize, scaledSafeZone, scaledLogoSize, logoSize] at h
  have hn0 : (0 : α) < (n : α) := by exact_mod_cast hn
  have hU : (0 : α) < (q - 2 * 20) * 3 := by nlinarith
  rw [← mul_div_assoc] at h
  have h2 : (j : α) * ((q - 2 * 20) * 3) / n < ((q - 2 * 20) * 3 - q * 0.2 * 3 * 1.1) / 2 := by
    linarith
  rw [div_lt_iff hn0] at h2
  by_contra hcon
  push_neg at hcon
  have h3 : 0.39 * (n : α) * ((q - 2 * 20) * 3) ≤ (j : α) * ((q - 2 * 20) * 3) :=
    mul_le_mul_of_nonneg_right hcon hU.le
  nlinarith

/-- Raster cell strictly right of the raster safe zone: its left edge
sits above 61 percent of the grid span. -/
lemma raster_right_gap_frac {α : Type} [LinearOrderedField α] {q : α} (hq : 40 < q)
    {n j : ℕ} (hn : 0 < n) (h : Raster.logoEnd q < Raster.cellX q n j) :
    0.61 * (n : α) < (j : α) := by
  simp only [Raster.cellX, Raster.cellSize, Raster.logoEnd, Raster.logoStart,
    Raster.marginPx, Raster.usableSize, scaledSafeZone, scaledLogoSize, logoSize] at h
  have hn0 : (0 : α) < (n : α) := by exact_mod_cast hn
  have hU : (0 : α) < (q - 2 * 20) * 3 := by nlinarith
  rw [← mul_div_assoc] at h
  have h2 : ((q - 2 * 20) * 3 - q * 0.2 * 3 * 1.1) / 2 + q * 0.2 * 3 * 1.1 <
      (j : α) * ((q - 2 * 20) * 3) / n := by
    linarith
  rw [lt_div_iff hn0] at h2
  by_contra hcon
  push_neg at hcon
  have h3 : (j : α) * ((q - 2 * 20) * 3) ≤ 0.61 * (n : α) * ((q - 2 * 20) * 3) :=
    mul_le_mul_of_nonneg_right hcon hU.le
  nlinarith

/-- A cell whose right edge sits below 39 percent of the grid span is
strictly left of the vector safe zone. -/
lemma svg_left_of_frac {α : Type} [LinearOrderedField α] {q : α} (hq : 40 < q)
    {n j : ℕ} (hn : 0 < n) (h : (j : α) < 0.39 * n) :
    Svg.cellX q n j < Svg.qrX + Svg.logoStart q := by
  have hn0 : (0 : α) < (n : α) := by exact_mod_cast hn
  have hq0 : (0 : α) < q := by linarith
  simp only [Svg.cellX, Svg.cellSize, Svg.usableSize, Svg.marginPx, Svg.baseSize, Svg.qrX,
    Svg.logoStart, Svg.safeZone, Svg.logoSize]
  set u : α := 1000 - 2 * (1000 * (20 / q)) with hudef
  have hu : 0 < u := by
    rw [hudef]
    have hd1 : (20 : α) / q < 1 / 2 := by
      rw [div_lt_iff hq0]
      linarith
    linarith
  have key : (j : α) * (u / n) < 0.39 * n * (u / n) :=
    mul_lt_mul_of_pos_right h (div_pos hu hn0)
  have keq : 0.39 * (n : α) * (u / n) = 0.39 * u := by
    rw [mul_assoc, mul_comm (n : α) (u / n), div_mul_cancel₀ u hn0.ne']
  rw [keq] at key
  linarith

/-- A cell whose left edge sits above 61 percent of the grid span is
strictly right of the vector safe zone. -/
lemma svg_right_of_frac {α : Type} [LinearOrderedField α] {q : α} (hq : 40 < q)
    {n j : ℕ} (hn : 0 < n) (h : 0.61 * (n : α) < (j : α)) :
    Svg.qrX + Svg.logoEnd q < Svg.cellX q n j := by
  have hn0 : (0 : α) < (n : α) := by exact_mod_cast hn
  have hq0 : (0 : α) < q := by linarith
  simp only [Svg.cellX, Svg.cellSize, Svg.usableSize, Svg.marginPx, Svg.baseSize, Svg.qrX,
    Svg.logoEnd, Svg.logoStart, Svg.safeZone, Svg.logoSize]
  set u : α := 1000 - 2 * (1000 * (20 / q)) with hudef
  have hu : 0 < u := by
    rw [hudef]
    have hd1 : (20 : α) / q < 1 / 2 := by
      rw [div_lt_iff hq0]
      linarith
    linarith
  have key : 0.61 * (n : α) * (u / n) < (j : α) * (u / n) :=
    mul_lt_mul_of_pos_right h (div_pos hu hn0)
  have keq : 0.61 * (n : α) * (u / n) = 0.61 * u := by
    rw [mul_assoc, mul_comm (n : α) (u / n), div_mul_cancel₀ u hn0.ne']
  rw [keq] at key
  linarith

/-- C1 amended: the vector safe-zone fraction (22 percent of the usable
span) is strictly inside the raster fraction (22 percent scaled up by
qrSize / (qrSize - 40)), so every cell the vector exporter excludes is
also excluded by the raster compositor — the converse fails, as the
counterexample shows. -/
theorem vector_exclusion_implies_raster {α : Type} [LinearOrderedField α]
    (q : α) (hq : 40 < q) (n : ℕ) (hn : 0 < n) (L : Bool) (row col : ℕ) :
    Svg.excluded L q n row col → Raster.excluded L q n row col := by
  rintro ⟨hL, hv⟩
  refine ⟨hL, ?_⟩
  intro hcon
  apply hv
  rcases hcon with h | h | h | h
  · rw [← raster_cellX_succ] at h
    have hf := svg_left_of_frac hq hn (raster_left_gap_frac hq hn h)
    rw [svg_cellX_succ] at hf
    exact Or.inl hf
  · exact Or.inr (Or.inl (svg_right_of_frac hq hn (raster_right_gap_frac hq hn h)))
  · rw [← raster_cellX_succ] at h
    have hf := svg_left_of_frac hq hn (raster_left_gap_frac hq hn h)
    rw [svg_cellX_succ] at hf
    exact Or.inr (Or.inr (Or.inl hf))
  · exact Or.inr (Or.inr (Or.inr (svg_right_of_frac hq hn (raster_right_gap_frac hq hn h))))

/-- C1 amended witness: the safe-zone containment at a concrete layout. -/
theorem vector_exclusion_implies_raster_witness :
    (40 : ℚ) < 240 ∧ 0 < 21 ∧
    (Svg.excluded true (240 : ℚ) 21 7 7 → Raster.excluded true (240 : ℚ) 21 7 7) :=
  ⟨by norm_num, by norm_num,
    vector_exclusion_implies_raster (240 : ℚ) (by norm_num) 21 (by norm_num) true 7 7⟩

/-- C2 counterexample: with the logo requested and its asset failing to
load, generateQR rejects and the display canvas receives nothing — the
render does not complete with modules and background drawn. -/
theorem logo_load_failure_aborts_render :
    generateQR logoFailEnv = .error .assetLoad := rfl

/-- C2 amended: when the logo asset fails to load during a raster render
with the logo enabled, the rejection propagates through drawQrToCtx to
generateQR: the whole render aborts with an asset-load error, the
display canvas is never updated and the save buttons are not shown. -/
theorem generateQR_error_on_logo_failure {α : Type} [LinearOrderedField α] [FloorRing α]
    (e : Env α) (ht : jsTrim e.textValue ≠ [])
    (hl : e.includeLogoChecked = true) (hf : e.loads logoSrc = false) :
    generateQR e = .error .assetLoad := by
  cases hm : jsTrim e.textValue with
  | nil => exact absurd hm ht
  | cons c ts =>
    cases hb : e.backgroundImageSrc with
    | none =>
      cases htr : e.transparentChecked <;>
        simp [generateQR, hm, drawQrToCtx, drawBgImage, drawSvgToCanvas, hb, htr, hl, hf,
          bind, Except.bind, pure, Except.pure]
    | some src =>
      cases htr : e.transparentChecked <;> cases hlb : e.loads src <;>
        simp [generateQR, hm, drawQrToCtx, drawBgImage, drawSvgToCanvas, hb, htr, hl, hf, hlb,
          bind, Except.bind, pure, Except.pure]

/-- C2 amended witness: the fatal logo failure at a concrete environment. -/
theorem generateQR_error_on_logo_failure_witness :
    generateQR failingEnv = Except.error JsError.assetLoad :=
  generateQR_error_on_logo_failure failingEnv (by decide) rfl rfl

/-- Absolute value of the sine is unchanged by taking the absolute value
of the angle. -/
lemma abs_sin_abs (x : ℝ) : |Real.sin (|x|)| = |Real.sin x| := by
  rcases abs_cases x with ⟨h, -⟩ | ⟨h, -⟩
  · rw [h]
  · rw [h, Real.sin_neg, abs_neg]

/-- C4: the vector document side equals the ceiling of the reference
size times the exact expansion factor plus twice the ten-percent
padding, and for every rotation angle — 37 degrees in particular — the
side is at least the rotated bounding-box width, so nothing is clipped. -/
theorem svg_size_formula_and_unclipped (θ : ℝ) :
    Svg.svgSize θ =
      ((⌈(1000 : ℝ) * max (|Real.cos (θ * Real.pi / 180)| + |Real.sin (θ * Real.pi / 180)|) 1⌉ : ℤ) : ℝ)
        + 2 * (0.1 * 1000) ∧
    1000 * (|Real.cos (θ * Real.pi / 180)| + |Real.sin (θ * Real.pi / 180)|) ≤ Svg.svgSize θ ∧
    1000 * (|Real.cos (37 * Real.pi / 180)| + |Real.sin (37 * Real.pi / 180)|) ≤ Svg.svgSize 37 := by
  have key : ∀ t : ℝ, Svg.svgSize t =
      ((⌈(1000 : ℝ) * max (|Real.cos (t * Real.pi / 180)| + |Real.sin (t * Real.pi / 180)|) 1⌉ : ℤ) : ℝ)
        + 2 * (0.1 * 1000) := by
    intro t
    unfold Svg.svgSize Svg.expandedSize Svg.expansionFactor Svg.rotationRadians
      Svg.paddingSize Svg.baseSize
    rw [Real.cos_abs, abs_sin_abs]
    norm_num
  have bound : ∀ t : ℝ,
      1000 * (|Real.cos (t * Real.pi / 180)| + |Real.sin (t * Real.pi / 180)|) ≤ Svg.svgSize t := by
    intro t
    rw [key t]
    have h1 : (1000 : ℝ) * (|Real.cos (t * Real.pi / 180)| + |Real.sin (t * Real.pi / 180)|) ≤
        1000 * max (|Real.cos (t * Real.pi / 180)| + |Real.sin (t * Real.pi / 180)|) 1 := by
      have h := le_max_left (|Real.cos (t * Real.pi / 180)| + |Real.sin (t * Real.pi / 180)|) (1 : ℝ)
      linarith
    have h2 := Int.le_ceil ((1000 : ℝ) *
      max (|Real.cos (t * Real.pi / 180)| + |Real.sin (t * Real.pi / 180)|) 1)
    linarith
  exact ⟨key θ, bound θ, bound 37⟩

end ClaimTheorems

end QrGen
